import Mathlib

/-!
# Verification of the `manipdraw` pick/paint subsystem

Shallow embedding of `src/src/manipdraw.c`: the non-blocking async GPU
readback protocol (`resolve_manip_complete`), the pick pass
(`resolve_manip`), the highlight pass (`paint_manip`) and the per-frame
coordinator (`draw_cb`), together with the module-level mutable state
(`cursor_xfer`, `manip_idx`, `prev_manip_idx`, `manip_clicks`, the PBO
content) and the pieces of OpenGL state the code reads and writes.

GPU calls are modelled as explicit state transitions on a `GLState`
record plus an emitted command trace, so that "what GPU work a frame
issues" and "what GL state a pass leaves behind" are both provable.
The asynchronous availability of the pixel transfer is an oracle input
(`mapOk`): when the non-blocking `glMapBuffer` succeeds it delivers the
content of the pixel-pack buffer written by the previously issued
`glReadPixels`; when it fails it delivers nothing. Which manipulator
index the manip-only draw leaves in the 1x1 pick texel is likewise an
oracle (`coverage`), since rasterization itself is outside the model.
-/

namespace Manipdraw

/-- `UINT16_MAX`, the sentinel "no element" index. -/
def UINT16_MAX : Nat := 65535

/-- A host viewport rectangle, as read from the `sim/graphics/view/viewport`
dataref (`vp[4]` in the source). -/
structure Viewport where
  x : Int
  y : Int
  w : Int
  h : Int
deriving DecidableEq, Repr

/-- OpenGL depth comparison functions.  The source only ever sets
`GL_GREATER` and `GL_LESS`, but the host may have left any one active. -/
inductive DepthFunc where
  | never
  | less
  | equal
  | lequal
  | greater
  | noteq
  | gequal
  | always
deriving DecidableEq, Repr

/-- `manip_click` from the source: one entry of the append-only click log. -/
structure manip_click where
  index : Nat
  start_t : Nat
deriving DecidableEq, Repr

/-- The module-level mutable state of `manipdraw.c` that the pick/readback
machinery touches: `cursor_xfer`, `manip_idx`, `prev_manip_idx`,
`manip_clicks`, the content of `cursor_pbo`, and the counters used by
`paint_manip` (`countup`, `todraw`, `last_draw_t`). -/
structure ManipState where
  cursor_xfer : Bool
  manip_idx : Nat
  prev_manip_idx : Nat
  manip_clicks : List manip_click
  pbo : Nat
  countup : Nat
  todraw : Nat
  last_draw_t : Nat
deriving DecidableEq, Repr

/-- The OpenGL server state the code reads or writes: framebuffer binding,
viewport, depth state, clear color, blend enable, and the content of the
1x1 16-bit pick color attachment (`cursor_tex[0]`). -/
structure GLState where
  framebuffer : Nat
  viewport : Viewport
  depthTest : Bool
  depthMask : Bool
  depthFunc : DepthFunc
  clearDepth : Rat
  clearColorR : Rat
  clearColorG : Rat
  clearColorB : Rat
  clearColorA : Rat
  pickTexel : Nat
  blend : Bool
deriving DecidableEq, Repr

set_option maxHeartbeats 1000000 in
set_option synthInstance.maxHeartbeats 1000000 in
/-- GPU commands a frame can issue; the trace of a frame records them in
order.  `drawManipOnly` records the viewport in effect when the manip-only
geometry is drawn; `paintDraw` records the command index painted. -/
inductive GLCmd where
  | bindFramebuffer (fbo : Nat)
  | setViewport (v : Viewport)
  | setDepthTest (b : Bool)
  | setDepthMask (b : Bool)
  | setDepthFunc (f : DepthFunc)
  | setClearDepth (d : Rat)
  | setClearColor (r g b a : Rat)
  | clearBuffers
  | bindShader (resolve : Bool)
  | drawManipOnly (v : Viewport)
  | readPixels
  | enableBlend
  | paintDraw (cmdIdx : Nat)
  | useProgram0
deriving DecidableEq, Repr

set_option maxHeartbeats 1000000 in
set_option synthInstance.maxHeartbeats 1000000 in
/-- Whole-world state: GL server state, module state, and the command
trace issued so far. -/
structure World where
  gl : GLState
  st : ManipState
  trace : List GLCmd
deriving DecidableEq, Repr

/-- Per-frame inputs supplied by the host: pointer position, whether the
non-blocking map attempt of this frame's drain succeeds, the current
`microclock()` value, and the host environment values read this frame. -/
structure HostEnv where
  vp : Viewport
  host_fbo : Nat
  xpver : Int
  modern_drv : Int
  rev_float_z : Int
  coverage : Option Nat
  indexToPaint : Nat
deriving DecidableEq, Repr

/-- The GL handle of `cursor_fbo` (allocated by `glGenFramebuffers`;
its concrete value is irrelevant, only its identity). -/
def cursor_fbo : Nat := 1

/-- Append a command to the frame's trace. -/
def emit (c : GLCmd) (w : World) : World :=
  { w with trace := w.trace ++ [c] }

/-- `glBindFramebufferEXT(GL_FRAMEBUFFER, fbo)`. -/
def glBindFramebuffer (fbo : Nat) (w : World) : World :=
  emit (.bindFramebuffer fbo) { w with gl := { w.gl with framebuffer := fbo } }

/-- `glViewport(x, y, width, height)`. -/
def glViewport (v : Viewport) (w : World) : World :=
  emit (.setViewport v) { w with gl := { w.gl with viewport := v } }

/-- `glEnable`/`glDisable` of `GL_DEPTH_TEST`. -/
def glDepthTest (b : Bool) (w : World) : World :=
  emit (.setDepthTest b) { w with gl := { w.gl with depthTest := b } }

/-- `glDepthMask`. -/
def glDepthMask (b : Bool) (w : World) : World :=
  emit (.setDepthMask b) { w with gl := { w.gl with depthMask := b } }

/-- `glDepthFunc`. -/
def glDepthFunc (f : DepthFunc) (w : World) : World :=
  emit (.setDepthFunc f) { w with gl := { w.gl with depthFunc := f } }

/-- `glClearDepth`. -/
def glClearDepth (d : Rat) (w : World) : World :=
  emit (.setClearDepth d) { w with gl := { w.gl with clearDepth := d } }

/-- `glClearColor`. -/
def glClearColor (r g b a : Rat) (w : World) : World :=
  emit (.setClearColor r g b a)
    { w with gl := { w.gl with
        clearColorR := r, clearColorG := g, clearColorB := b,
        clearColorA := a } }

/-- OpenGL's conversion of a clamped floating-point clear value into a
normalized unsigned 16-bit texel (`GL_R16`): clamp to `[0,1]`, scale by
`2^16 - 1`, round to nearest. -/
def u16OfUnitFloat (r : Rat) : Nat :=
  if r ≤ 0 then 0
  else if 1 ≤ r then UINT16_MAX
  else (Rat.floor (r * 65535 + 1 / 2)).toNat

/-- `glClear(GL_COLOR_BUFFER_BIT | GL_DEPTH_BUFFER_BIT)`: when the pick
framebuffer is bound, the 16-bit pick texel receives the current clear
color's red channel, converted to a normalized `u16`. -/
def glClear (w : World) : World :=
  emit .clearBuffers <|
    if w.gl.framebuffer = cursor_fbo then
      { w with gl := { w.gl with pickTexel := u16OfUnitFloat w.gl.clearColorR } }
    else w

/-- `glEnable(GL_BLEND)`. -/
def glEnableBlend (w : World) : World :=
  emit .enableBlend { w with gl := { w.gl with blend := true } }

/-- `shader_obj_bind` of the resolve (`true`) or paint (`false`) shader. -/
def shader_obj_bind (resolve : Bool) (w : World) : World :=
  emit (.bindShader resolve) w

/-- `obj8_draw_group` in `OBJ8_RENDER_MODE_MANIP_ONLY`: when the pick
framebuffer is bound, `coverage` says which manipulator index (if any)
the rasterized manip-only geometry leaves in the 1x1 pick texel; the
texel stores the low 16 bits.  The draw executes under the currently
set viewport, which the trace records. -/
def obj8_draw_group_manip (coverage : Option Nat) (w : World) : World :=
  emit (.drawManipOnly w.gl.viewport) <|
    if w.gl.framebuffer = cursor_fbo then
      match coverage with
      | some idx => { w with gl := { w.gl with pickTexel := idx % 65536 } }
      | none => w
    else w

/-- `glReadPixels(0, 0, 1, 1, GL_RED, GL_UNSIGNED_SHORT, NULL)` with
`cursor_pbo` bound as the pixel-pack buffer: issues the asynchronous
copy of the pick texel into the PBO. -/
def glReadPixelsPBO (w : World) : World :=
  emit .readPixels
    { w with st := { w.st with
        pbo := if w.gl.framebuffer = cursor_fbo then w.gl.pickTexel else w.st.pbo } }

/-- `glUseProgram(0)`. -/
def glUseProgram0 (w : World) : World :=
  emit .useProgram0 w

/-- `resolve_manip_complete` from the source.  `mapResult` is the outcome
of the non-blocking `glMapBuffer`: `none` when the map fails (returned
`NULL`), `some data` when it succeeds and delivers the 16-bit value
`*data`.  `now` is `microclock()`. -/
def resolve_manip_complete (mapResult : Option Nat) (now : Nat)
    (s : ManipState) : ManipState :=
  if s.cursor_xfer = false then
    s
  else
    match mapResult with
    | none => { s with cursor_xfer := false }
    | some data =>
      let idx := data % 65536
      if idx ≠ UINT16_MAX ∧ idx ≠ s.prev_manip_idx then
        { s with
            manip_idx := idx,
            prev_manip_idx := idx,
            manip_clicks := s.manip_clicks ++ [⟨idx, now⟩],
            cursor_xfer := false }
      else
        { s with manip_idx := idx, cursor_xfer := false }

/-- `is_rev_float_z` from the source. -/
def is_rev_float_z (env : HostEnv) : Bool :=
  decide (12000 ≤ env.xpver) || decide (env.modern_drv ≠ 0) ||
    decide (env.rev_float_z ≠ 0)

/-- `resolve_manip` from the source: drain the previous transfer, then run
the pick pass (bind pick FBO, offset viewport, depth setup, clear to
sentinel, draw manip-only geometry, issue the async readback) and put the
GL state back the way the code puts it back. -/
def resolve_manip (mouse_x mouse_y : Int) (mapOk : Bool) (now : Nat)
    (env : HostEnv) (w : World) : World :=
  let w := { w with
    st := resolve_manip_complete
      (if mapOk then some w.st.pbo else none) now w.st }
  let vp := env.vp
  let w := glBindFramebuffer cursor_fbo w
  let w := glViewport ⟨vp.x - mouse_x, vp.y - mouse_y, vp.w, vp.h⟩ w
  let w := glDepthTest true w
  let w := glDepthMask true w
  let w := if is_rev_float_z env then glClearDepth 0 (glDepthFunc .greater w) else w
  let w := glClearColor 1 0 0 1 w
  let w := glClear w
  let w := glClearColor 0 0 0 0 w
  let w := shader_obj_bind true w
  let w := obj8_draw_group_manip env.coverage w
  let w := glReadPixelsPBO w
  let w := { w with st := { w.st with cursor_xfer := true } }
  let w := glDepthTest false w
  let w := glDepthMask false w
  let w := if is_rev_float_z env then glClearDepth 1 (glDepthFunc .less w) else w
  let w := glBindFramebuffer env.host_fbo w
  let w := glViewport vp w
  w

/-- `paint_manip` from the source: bump the debug counters, bind the paint
shader, enable blending, draw the configured highlight group, and set the
viewport to the host viewport. -/
def paint_manip (now : Nat) (env : HostEnv) (w : World) : World :=
  let vp := env.vp
  let countup := (w.st.countup + 1) % 2 ^ 32
  let newtodraw := countup / 2 % 200
  let w := { w with st := { w.st with countup := countup, todraw := newtodraw } }
  let w := shader_obj_bind false w
  let w := glEnableBlend w
  let w := emit (.paintDraw env.indexToPaint) w
  let w := glViewport vp w
  { w with st := { w.st with last_draw_t := now } }

/-- The out-of-bounds test of `draw_cb` (strict comparisons against the
closed host viewport rectangle). -/
def mouse_off_screen (mouse_x mouse_y : Int) (vp : Viewport) : Bool :=
  decide (mouse_x < vp.x) || decide (mouse_x > vp.x + vp.w) ||
    decide (mouse_y < vp.y) || decide (mouse_y > vp.y + vp.h)

/-- `draw_cb` from the source: skip everything when the mouse is
off-screen, otherwise resolve then paint, and unbind the shader program. -/
def draw_cb (mouse_x mouse_y : Int) (mapOk : Bool) (now : Nat)
    (env : HostEnv) (w : World) : World :=
  if mouse_off_screen mouse_x mouse_y env.vp then
    w
  else
    let w := resolve_manip mouse_x mouse_y mapOk now env w
    let w := paint_manip now env w
    glUseProgram0 w

/-- The module state right after `XPluginEnable`: no transfer pending,
both indices at the sentinel, empty click log.  The initial PBO content
is unspecified (`glBufferData` with `NULL`), hence a parameter. -/
def init_manip_state (pbo0 : Nat) : ManipState :=
  { cursor_xfer := false, manip_idx := UINT16_MAX,
    prev_manip_idx := UINT16_MAX, manip_clicks := [],
    pbo := pbo0, countup := 0, todraw := 0, last_draw_t := 0 }

/-- One frame's worth of host-side inputs to `draw_cb`. -/
structure FrameIn where
  mouse_x : Int
  mouse_y : Int
  mapOk : Bool
  now : Nat
  env : HostEnv
deriving DecidableEq, Repr

/-- Run a sequence of frame callbacks. -/
def run_frames (fs : List FrameIn) (w : World) : World :=
  fs.foldl (fun w f => draw_cb f.mouse_x f.mouse_y f.mapOk f.now f.env w) w

/-- The value the pick pass leaves in the 1x1 pick texel (and hence in the
PBO): the covering manipulator's index if the manip-only draw covers the
texel, the sentinel left by the clear otherwise. -/
def pick_texel_result (env : HostEnv) : Nat :=
  match env.coverage with
  | some idx => idx % 65536
  | none => UINT16_MAX

/-- A concrete quiescent GL state, used for concrete scenario runs. -/
def g0 : GLState :=
  { framebuffer := 0, viewport := ⟨0, 0, 0, 0⟩, depthTest := false,
    depthMask := false, depthFunc := .less, clearDepth := 1,
    clearColorR := 0, clearColorG := 0, clearColorB := 0, clearColorA := 0,
    pickTexel := 0, blend := false }

/-- A concrete host environment with viewport `(0,0,800,600)`,
forward-depth signalling, and a given texel coverage. -/
def env_cov (cov : Option Nat) : HostEnv :=
  { vp := ⟨0, 0, 800, 600⟩, host_fbo := 0, xpver := 11500, modern_drv := 0,
    rev_float_z := 0, coverage := cov, indexToPaint := 5 }

/-! ## Helper lemmas -/

/-- The `GL_R16` conversion sends clear-color red `1.0` to `0xFFFF`,
exactly as the comment above `glClearColor(1, 0, 0, 1)` in the source
explains. -/
lemma u16OfUnitFloat_one : u16OfUnitFloat 1 = UINT16_MAX := by decide

/-- Whatever the map outcome, a drain always leaves the pending flag
cleared (the source sets `cursor_xfer = false` unconditionally at the end,
and the early-return path only fires when it is already clear). -/
lemma drain_clears_xfer (mapResult : Option Nat) (now : Nat) (s : ManipState) :
    (resolve_manip_complete mapResult now s).cursor_xfer = false := by
  unfold resolve_manip_complete
  rcases h : s.cursor_xfer with _ | _
  · simp [h]
  · simp [h]
    cases mapResult with
    | none => simp
    | some data => dsimp only; split <;> simp

/-- A drain whose map attempt fails clears the pending flag and changes
nothing else. -/
lemma drain_none_eq (now : Nat) (s : ManipState) :
    resolve_manip_complete none now s = { s with cursor_xfer := false } := by
  unfold resolve_manip_complete
  rcases h : s.cursor_xfer with _ | _
  · cases s
    simp_all
  · simp [h]

/-- Case analysis of one drain's effect on the click log and the recorded
previous index: either both are untouched, or the map succeeded with a
non-sentinel value different from the recorded one, exactly one event was
appended, and the recorded index became that value. -/
lemma drain_clicks_cases (mapResult : Option Nat) (now : Nat) (s : ManipState) :
    ((resolve_manip_complete mapResult now s).manip_clicks = s.manip_clicks ∧
      (resolve_manip_complete mapResult now s).prev_manip_idx = s.prev_manip_idx) ∨
    (∃ data, mapResult = some data ∧ data % 65536 ≠ UINT16_MAX ∧
      data % 65536 ≠ s.prev_manip_idx ∧
      (resolve_manip_complete mapResult now s).manip_clicks =
        s.manip_clicks ++ [⟨data % 65536, now⟩] ∧
      (resolve_manip_complete mapResult now s).prev_manip_idx = data % 65536) := by
  unfold resolve_manip_complete
  rcases h : s.cursor_xfer with _ | _
  · left; simp [h]
  · simp only [h]
    cases mapResult with
    | none => left; simp
    | some data =>
      by_cases hc : data % 65536 ≠ UINT16_MAX ∧ data % 65536 ≠ s.prev_manip_idx
      · right
        exact ⟨data, rfl, hc.1, hc.2, by simp [hc], by simp [hc]⟩
      · left; simp [hc]

/-- A drain never touches the PBO content. -/
lemma drain_pbo (mapResult : Option Nat) (now : Nat) (s : ManipState) :
    (resolve_manip_complete mapResult now s).pbo = s.pbo := by
  unfold resolve_manip_complete
  rcases h : s.cursor_xfer with _ | _
  · simp [h]
  · simp [h]
    cases mapResult with
    | none => simp
    | some data => dsimp only; split <;> simp

/-- A drain never touches the paint counters. -/
lemma drain_counters (mapResult : Option Nat) (now : Nat) (s : ManipState) :
    (resolve_manip_complete mapResult now s).countup = s.countup ∧
    (resolve_manip_complete mapResult now s).todraw = s.todraw ∧
    (resolve_manip_complete mapResult now s).last_draw_t = s.last_draw_t := by
  unfold resolve_manip_complete
  rcases h : s.cursor_xfer with _ | _
  · simp [h]
  · simp [h]
    cases mapResult with
    | none => simp
    | some data => dsimp only; split <;> simp

/-- Full characterization of the module state after `resolve_manip`: the
drained state, with the pending flag raised and the pick result in the
PBO. -/
lemma resolve_manip_st (mouse_x mouse_y : Int) (mapOk : Bool) (now : Nat)
    (env : HostEnv) (w : World) :
    (resolve_manip mouse_x mouse_y mapOk now env w).st =
      { resolve_manip_complete (if mapOk then some w.st.pbo else none) now w.st with
          cursor_xfer := true, pbo := pick_texel_result env } := by
  unfold resolve_manip
  rcases hrev : is_rev_float_z env with _ | _ <;>
  rcases hcov : env.coverage with _ | idx <;>
    simp [hrev, hcov, glBindFramebuffer, glViewport, glDepthTest, glDepthMask,
      glDepthFunc, glClearDepth, glClearColor, glClear, shader_obj_bind,
      obj8_draw_group_manip, glReadPixelsPBO, emit, pick_texel_result,
      u16OfUnitFloat_one]

/-- Full characterization of the GL state after `resolve_manip`:
framebuffer and viewport are set to the host dataref values, depth test
and depth mask are forced off, depth func and clear depth are set to
`GL_LESS`/`1` in reversed-z mode and untouched otherwise, the clear color
ends at `(0,0,0,0)`, and the pick texel holds the pick result. -/
lemma resolve_manip_gl (mouse_x mouse_y : Int) (mapOk : Bool) (now : Nat)
    (env : HostEnv) (w : World) :
    (resolve_manip mouse_x mouse_y mapOk now env w).gl =
      { framebuffer := env.host_fbo, viewport := env.vp,
        depthTest := false, depthMask := false,
        depthFunc := if is_rev_float_z env then .less else w.gl.depthFunc,
        clearDepth := if is_rev_float_z env then 1 else w.gl.clearDepth,
        clearColorR := 0, clearColorG := 0, clearColorB := 0, clearColorA := 0,
        pickTexel := pick_texel_result env, blend := w.gl.blend } := by
  unfold resolve_manip
  rcases hrev : is_rev_float_z env with _ | _ <;>
  rcases hcov : env.coverage with _ | idx <;>
    simp [hrev, hcov, glBindFramebuffer, glViewport, glDepthTest, glDepthMask,
      glDepthFunc, glClearDepth, glClearColor, glClear, shader_obj_bind,
      obj8_draw_group_manip, glReadPixelsPBO, emit, pick_texel_result,
      u16OfUnitFloat_one]

/-- The exact command trace a pick pass appends. -/
lemma resolve_manip_trace (mouse_x mouse_y : Int) (mapOk : Bool) (now : Nat)
    (env : HostEnv) (w : World) :
    (resolve_manip mouse_x mouse_y mapOk now env w).trace =
      w.trace ++
      ([.bindFramebuffer cursor_fbo,
        .setViewport ⟨env.vp.x - mouse_x, env.vp.y - mouse_y, env.vp.w, env.vp.h⟩,
        .setDepthTest true, .setDepthMask true] ++
       (if is_rev_float_z env then
          [GLCmd.setDepthFunc .greater, GLCmd.setClearDepth 0] else []) ++
       [.setClearColor 1 0 0 1, .clearBuffers, .setClearColor 0 0 0 0,
        .bindShader true,
        .drawManipOnly ⟨env.vp.x - mouse_x, env.vp.y - mouse_y, env.vp.w, env.vp.h⟩,
        .readPixels, .setDepthTest false, .setDepthMask false] ++
       (if is_rev_float_z env then
          [GLCmd.setDepthFunc .less, GLCmd.setClearDepth 1] else []) ++
       [.bindFramebuffer env.host_fbo, .setViewport env.vp]) := by
  unfold resolve_manip
  rcases hrev : is_rev_float_z env with _ | _ <;>
  rcases hcov : env.coverage with _ | idx <;>
    simp [hrev, hcov, glBindFramebuffer, glViewport, glDepthTest, glDepthMask,
      glDepthFunc, glClearDepth, glClearColor, glClear, shader_obj_bind,
      obj8_draw_group_manip, glReadPixelsPBO, emit]

/-- Characterization of `paint_manip`: state effects on the counters,
blend enable, the final viewport, and the appended trace. -/
lemma paint_manip_eq (now : Nat) (env : HostEnv) (w : World) :
    paint_manip now env w =
      { gl := { w.gl with viewport := env.vp, blend := true },
        st := { w.st with
          countup := (w.st.countup + 1) % 2 ^ 32,
          todraw := (w.st.countup + 1) % 2 ^ 32 / 2 % 200,
          last_draw_t := now },
        trace := w.trace ++
          [.bindShader false, .enableBlend, .paintDraw env.indexToPaint,
           .setViewport env.vp] } := by
  unfold paint_manip
  simp [shader_obj_bind, glEnableBlend, glViewport, emit]

/-- `draw_cb` with the mouse off-screen does nothing at all. -/
lemma draw_cb_off (mouse_x mouse_y : Int) (mapOk : Bool) (now : Nat)
    (env : HostEnv) (w : World)
    (h : mouse_off_screen mouse_x mouse_y env.vp = true) :
    draw_cb mouse_x mouse_y mapOk now env w = w := by
  unfold draw_cb
  simp [h]

/-- `draw_cb` with the mouse on-screen is resolve, then paint, then
`glUseProgram(0)`. -/
lemma draw_cb_on (mouse_x mouse_y : Int) (mapOk : Bool) (now : Nat)
    (env : HostEnv) (w : World)
    (h : mouse_off_screen mouse_x mouse_y env.vp = false) :
    draw_cb mouse_x mouse_y mapOk now env w =
      glUseProgram0 (paint_manip now env
        (resolve_manip mouse_x mouse_y mapOk now env w)) := by
  unfold draw_cb
  simp [h]

/-- The coupling invariant between the click log and `prev_manip_idx`: no
two consecutive log entries share an index, and the last entry's index (if
any) is exactly the recorded previous index. -/
def click_inv (s : ManipState) : Prop :=
  List.Chain' (fun a b => a.index ≠ b.index) s.manip_clicks ∧
  ∀ c, s.manip_clicks.getLast? = some c → c.index = s.prev_manip_idx

/-- A drain preserves the click-log invariant. -/
lemma drain_click_inv (mapResult : Option Nat) (now : Nat) (s : ManipState)
    (h : click_inv s) : click_inv (resolve_manip_complete mapResult now s) := by
  rcases drain_clicks_cases mapResult now s with
    ⟨h1, h2⟩ | ⟨data, _, _, hne, hc, hp⟩
  · exact ⟨h1 ▸ h.1, fun c hc => h2 ▸ h.2 c (h1 ▸ hc)⟩
  · constructor
    · rw [hc, List.chain'_append]
      refine ⟨h.1, List.chain'_singleton _, ?_⟩
      intro x hx y hy
      simp only [List.head?_cons, Option.mem_def, Option.some.injEq] at hy
      subst hy
      simp only [Option.mem_def] at hx
      have := h.2 x hx
      simpa [this] using hne.symm
    · intro c hlast
      rw [hc, List.getLast?_concat] at hlast
      cases hlast
      simpa using hp.symm

/-- The invariant only involves the click log and `prev_manip_idx`. -/
lemma click_inv_congr (s s' : ManipState)
    (h1 : s'.manip_clicks = s.manip_clicks)
    (h2 : s'.prev_manip_idx = s.prev_manip_idx)
    (h : click_inv s) : click_inv s' :=
  ⟨h1 ▸ h.1, fun c hc => h2 ▸ h.2 c (h1 ▸ hc)⟩

/-- One frame callback preserves the click-log invariant. -/
lemma frame_click_inv (mouse_x mouse_y : Int) (mapOk : Bool) (now : Nat)
    (env : HostEnv) (w : World) (h : click_inv w.st) :
    click_inv (draw_cb mouse_x mouse_y mapOk now env w).st := by
  rcases hoff : mouse_off_screen mouse_x mouse_y env.vp with _ | _
  · rw [draw_cb_on mouse_x mouse_y mapOk now env w hoff]
    simp only [glUseProgram0, emit, paint_manip_eq, resolve_manip_st]
    exact drain_click_inv _ now w.st h
  · rw [draw_cb_off mouse_x mouse_y mapOk now env w hoff]
    exact h

/-- Any frame sequence preserves the click-log invariant. -/
lemma run_frames_click_inv (fs : List FrameIn) (w : World)
    (h : click_inv w.st) : click_inv (run_frames fs w).st := by
  induction fs generalizing w with
  | nil => exact h
  | cons f fs ih =>
    rw [run_frames, List.foldl_cons]
    exact ih _ (frame_click_inv f.mouse_x f.mouse_y f.mapOk f.now f.env w h)

/-- One frame callback whose map attempt fails leaves `manip_idx`
untouched. -/
lemma frame_manip_idx (mouse_x mouse_y : Int) (now : Nat)
    (env : HostEnv) (w : World) :
    (draw_cb mouse_x mouse_y false now env w).st.manip_idx =
      w.st.manip_idx := by
  rcases hoff : mouse_off_screen mouse_x mouse_y env.vp with _ | _
  · rw [draw_cb_on mouse_x mouse_y false now env w hoff]
    simp [glUseProgram0, emit, paint_manip_eq, resolve_manip_st, drain_none_eq]
  · rw [draw_cb_off mouse_x mouse_y false now env w hoff]

/-- A frame sequence all of whose map attempts fail leaves `manip_idx`
untouched. -/
lemma run_frames_manip_idx (fs : List FrameIn) (w : World)
    (h : ∀ f ∈ fs, f.mapOk = false) :
    (run_frames fs w).st.manip_idx = w.st.manip_idx := by
  induction fs generalizing w with
  | nil => rfl
  | cons f fs ih =>
    rw [run_frames, List.foldl_cons]
    have hf : f.mapOk = false := h f (List.mem_cons_self f fs)
    rw [show (List.foldl (fun w f => draw_cb f.mouse_x f.mouse_y f.mapOk f.now f.env w)
          (draw_cb f.mouse_x f.mouse_y f.mapOk f.now f.env w) fs) =
        run_frames fs (draw_cb f.mouse_x f.mouse_y false f.now f.env w) by
      rw [hf, run_frames]]
    rw [ih _ fun g hg => h g (List.mem_cons_of_mem f hg)]
    exact frame_manip_idx f.mouse_x f.mouse_y f.now f.env w

/-- The four-frame scenario behind the sentinel-gap claim, with arbitrary
timestamps: pointer fixed in-bounds at `(100,100)`; frame 1 renders
coverage 3 (its drain finds nothing pending); frames 2-4 each successfully
map the previous frame's transfer, so their drains resolve 3, then the
sentinel (frame 2 rendered no coverage), then 3 again. -/
def c4_frames_t (t1 t2 t3 t4 : Nat) : List FrameIn :=
  [⟨100, 100, false, t1, env_cov (some 3)⟩,
   ⟨100, 100, true, t2, env_cov none⟩,
   ⟨100, 100, true, t3, env_cov (some 3)⟩,
   ⟨100, 100, true, t4, env_cov none⟩]

/-- A concrete prior GL state in which the host had the depth test and
depth mask enabled, a non-default depth function, and a fractional clear
depth. -/
def g_depth : GLState :=
  { framebuffer := 7, viewport := ⟨1, 2, 3, 4⟩, depthTest := true,
    depthMask := true, depthFunc := .always, clearDepth := 1 / 2,
    clearColorR := 1 / 4, clearColorG := 0, clearColorB := 0,
    clearColorA := 1, pickTexel := 5, blend := true }

/-! ## Claims -/

/-- C1, counterexample.  At a concrete drain with a transfer pending and a
failed non-blocking map attempt, the pending flag does NOT stay set: the
source clears `cursor_xfer` unconditionally at the end of
`resolve_manip_complete`, so the protocol state does not remain
`Requested` and the same transfer is not retried. -/
theorem map_fail_not_requested_cex :
    (resolve_manip_complete none 5
      ⟨true, 7, UINT16_MAX, [], 7, 0, 0, 0⟩).cursor_xfer = false := by
  decide

/-- C1, amended.  When the non-blocking map attempt fails, the drain
clears the pending flag as well: the transfer is abandoned rather than
retried, and nothing else of the module state (resolved index, recorded
previous index, click log, PBO) changes. -/
theorem map_fail_abandons_transfer (now : Nat) (s : ManipState) :
    resolve_manip_complete none now s = { s with cursor_xfer := false } :=
  drain_none_eq now s

/-- C2.  Every pick pass drains the previous transfer before issuing a new
one: the module state `resolve_manip` issues from is exactly the drained
state, and that drained state has the pending flag cleared — so at the
moment the GPU-to-buffer copy is issued, no earlier transfer is still
pending. -/
theorem at_most_one_outstanding (mouse_x mouse_y : Int) (mapOk : Bool)
    (now : Nat) (env : HostEnv) (w : World) :
    (resolve_manip_complete (if mapOk then some w.st.pbo else none) now
      w.st).cursor_xfer = false ∧
    (resolve_manip mouse_x mouse_y mapOk now env w).st =
      { resolve_manip_complete (if mapOk then some w.st.pbo else none) now w.st with
          cursor_xfer := true, pbo := pick_texel_result env } :=
  ⟨drain_clears_xfer _ now w.st,
   resolve_manip_st mouse_x mouse_y mapOk now env w⟩

/-- C3.  A drain changes the click log only by appending a single event
whose delivered index is non-sentinel and differs from the previously
recorded index; consequently, over every frame sequence from the initial
state, the click log never contains two consecutive entries with equal
index. -/
theorem click_dedup_law :
    (∀ (g : GLState) (pbo0 : Nat) (fs : List FrameIn),
      List.Chain' (fun a b => a.index ≠ b.index)
        ((run_frames fs ⟨g, init_manip_state pbo0, []⟩).st.manip_clicks)) ∧
    (∀ (mapResult : Option Nat) (now : Nat) (s : ManipState),
      (resolve_manip_complete mapResult now s).manip_clicks ≠ s.manip_clicks →
      ∃ data, mapResult = some data ∧ data % 65536 ≠ UINT16_MAX ∧
        data % 65536 ≠ s.prev_manip_idx ∧
        (resolve_manip_complete mapResult now s).manip_clicks =
          s.manip_clicks ++ [⟨data % 65536, now⟩]) := by
  constructor
  · intro g pbo0 fs
    have h : click_inv (init_manip_state pbo0) := by
      constructor
      · simp [init_manip_state]
      · intro c hc
        simp [init_manip_state] at hc
    exact (run_frames_click_inv fs ⟨g, init_manip_state pbo0, []⟩ h).1
  · intro mapResult now s hne
    rcases drain_clicks_cases mapResult now s with
      ⟨h1, _⟩ | ⟨data, hm, hns, hnp, hc, _⟩
    · exact absurd h1 hne
    · exact ⟨data, hm, hns, hnp, hc⟩

/-- C3, witness: a concrete drain that appends, with the append condition
discharged. -/
theorem click_dedup_law_witness :
    ∃ data, (some 3 : Option Nat) = some data ∧ data % 65536 ≠ UINT16_MAX ∧
      data % 65536 ≠ (⟨true, UINT16_MAX, UINT16_MAX, [], 0, 0, 0, 0⟩ :
        ManipState).prev_manip_idx ∧
      (resolve_manip_complete (some 3) 42
        ⟨true, UINT16_MAX, UINT16_MAX, [], 0, 0, 0, 0⟩).manip_clicks =
        (⟨true, UINT16_MAX, UINT16_MAX, [], 0, 0, 0, 0⟩ :
          ManipState).manip_clicks ++ [⟨data % 65536, 42⟩] :=
  click_dedup_law.2 (some 3) 42
    ⟨true, UINT16_MAX, UINT16_MAX, [], 0, 0, 0, 0⟩ (by decide)

/-- C4, counterexample.  In the concrete scenario "frame resolves index 3,
next frame resolves the sentinel, next frame resolves 3 again" (coverage
3, then no coverage, then coverage 3, with every readback mapped one frame
later), the run appends exactly ONE ClickEvent with index 3, not two: the
recorded previous index is not reset by the sentinel resolution, so the
second occurrence of 3 is deduplicated against the first. -/
theorem sentinel_gap_cex :
    ((run_frames (c4_frames_t 10 20 30 40)
        ⟨g0, init_manip_state 0, []⟩).st.manip_clicks.filter
      (fun c => c.index = 3)).length = 1 ∧
    ((run_frames (c4_frames_t 10 20 30 40)
        ⟨g0, init_manip_state 0, []⟩).st.manip_clicks.filter
      (fun c => c.index = 3)).length ≠ 2 := by
  decide

/-- C4, amended.  In the scenario "resolve 3, resolve sentinel, resolve 3
again", only one ClickEvent (for the first occurrence of 3) is appended:
the two occurrences ARE merged across the sentinel gap, because a sentinel
resolution leaves the previously recorded index untouched. -/
theorem sentinel_gap_merged (t1 t2 t3 t4 : Nat) :
    (run_frames (c4_frames_t t1 t2 t3 t4)
      ⟨g0, init_manip_state 0, []⟩).st.manip_clicks = [⟨3, t2⟩] := by
  rfl

/-- C5.  When no interactive geometry covers the pick texel, the pick pass
leaves the sentinel (the maximum representable 16-bit value, produced by
clearing the `GL_R16` attachment with clear color red = 1.0) in the
transfer buffer; a subsequent successful drain of that transfer therefore
resolves the sentinel "no element" index.  Moreover the clear precedes the
manip-only draw in the pass's command trace. -/
theorem clear_sentinel_resolves_no_hit (mouse_x mouse_y : Int) (mapOk : Bool)
    (now now' : Nat) (env : HostEnv) (g : GLState) (s : ManipState)
    (h : env.coverage = none) :
    (resolve_manip mouse_x mouse_y mapOk now env ⟨g, s, []⟩).st.pbo =
      UINT16_MAX ∧
    (resolve_manip_complete
      (some (resolve_manip mouse_x mouse_y mapOk now env ⟨g, s, []⟩).st.pbo)
      now'
      (resolve_manip mouse_x mouse_y mapOk now env ⟨g, s, []⟩).st).manip_idx =
      UINT16_MAX ∧
    (∃ i j, i < j ∧
      (resolve_manip mouse_x mouse_y mapOk now env ⟨g, s, []⟩).trace.get? i =
        some .clearBuffers ∧
      (resolve_manip mouse_x mouse_y mapOk now env ⟨g, s, []⟩).trace.get? j =
        some (.drawManipOnly
          ⟨env.vp.x - mouse_x, env.vp.y - mouse_y, env.vp.w, env.vp.h⟩)) := by
  have hpbo : (resolve_manip mouse_x mouse_y mapOk now env ⟨g, s, []⟩).st.pbo =
      UINT16_MAX := by
    rw [resolve_manip_st]
    simp [pick_texel_result, h]
  refine ⟨hpbo, ?_, ?_⟩
  · rw [hpbo]
    have hx : (resolve_manip mouse_x mouse_y mapOk now env
        ⟨g, s, []⟩).st.cursor_xfer = true := by
      rw [resolve_manip_st]
    unfold resolve_manip_complete
    rw [hx]
    simp [UINT16_MAX]
  · rw [resolve_manip_trace]
    rcases hrev : is_rev_float_z env with _ | _
    · exact ⟨5, 8, by omega, by simp [hrev], by simp [hrev]⟩
    · exact ⟨7, 10, by omega, by simp [hrev], by simp [hrev]⟩

/-- C5, witness: the pick pass over an uncovered texel at a concrete
state. -/
theorem clear_sentinel_resolves_no_hit_witness :
    (resolve_manip 10 10 false 0 (env_cov none)
      ⟨g0, init_manip_state 0, []⟩).st.pbo = UINT16_MAX ∧
    (resolve_manip_complete
      (some (resolve_manip 10 10 false 0 (env_cov none)
        ⟨g0, init_manip_state 0, []⟩).st.pbo) 1
      (resolve_manip 10 10 false 0 (env_cov none)
        ⟨g0, init_manip_state 0, []⟩).st).manip_idx = UINT16_MAX ∧
    (∃ i j, i < j ∧
      (resolve_manip 10 10 false 0 (env_cov none)
        ⟨g0, init_manip_state 0, []⟩).trace.get? i = some .clearBuffers ∧
      (resolve_manip 10 10 false 0 (env_cov none)
        ⟨g0, init_manip_state 0, []⟩).trace.get? j =
        some (.drawManipOnly ⟨(env_cov none).vp.x - 10,
          (env_cov none).vp.y - 10, (env_cov none).vp.w,
          (env_cov none).vp.h⟩)) :=
  clear_sentinel_resolves_no_hit 10 10 false 0 1 (env_cov none) g0
    (init_manip_state 0) rfl

/-- C6.  The pick pass sets the GPU viewport to exactly
`(vp.x - mouse_x, vp.y - mouse_y, vp.w, vp.h)`, and the manip-only draw
executes under exactly that viewport (so the texel under the pointer
coincides with the 1x1 pick surface's texel at origin). -/
theorem offset_viewport_trick (mouse_x mouse_y : Int) (mapOk : Bool)
    (now : Nat) (env : HostEnv) (g : GLState) (s : ManipState) :
    GLCmd.setViewport
        ⟨env.vp.x - mouse_x, env.vp.y - mouse_y, env.vp.w, env.vp.h⟩ ∈
      (resolve_manip mouse_x mouse_y mapOk now env ⟨g, s, []⟩).trace ∧
    GLCmd.drawManipOnly
        ⟨env.vp.x - mouse_x, env.vp.y - mouse_y, env.vp.w, env.vp.h⟩ ∈
      (resolve_manip mouse_x mouse_y mapOk now env ⟨g, s, []⟩).trace := by
  rw [resolve_manip_trace]
  constructor <;> simp

/-- C7.  With the pointer outside the host viewport rectangle, the frame
callback does nothing at all (no pick, no paint, no state change, no GPU
command); with viewport `(0,0,800,600)` and pointer `(100,100)`, the pick
pass executes (the async readback is issued). -/
theorem offscreen_skips_frame :
    (∀ (mouse_x mouse_y : Int) (mapOk : Bool) (now : Nat) (env : HostEnv)
      (w : World), mouse_off_screen mouse_x mouse_y env.vp = true →
        draw_cb mouse_x mouse_y mapOk now env w = w) ∧
    GLCmd.readPixels ∈
      (draw_cb 100 100 false 0 (env_cov none)
        ⟨g0, init_manip_state 0, []⟩).trace := by
  constructor
  · intro mouse_x mouse_y mapOk now env w h
    exact draw_cb_off mouse_x mouse_y mapOk now env w h
  · decide

/-- C7, witness: a concrete out-of-bounds pointer `(-5, 100)` for viewport
`(0,0,800,600)` skips the whole frame. -/
theorem offscreen_skips_frame_witness :
    draw_cb (-5) 100 false 0 (env_cov none) ⟨g0, init_manip_state 0, []⟩ =
      ⟨g0, init_manip_state 0, []⟩ :=
  offscreen_skips_frame.1 (-5) 100 false 0 (env_cov none)
    ⟨g0, init_manip_state 0, []⟩ (by decide)

/-- C8, counterexample.  At a concrete prior GL state with the depth test
enabled, the pick pass leaves the depth test disabled: the depth state is
NOT restored to its pre-pass value for every possible prior host state. -/
theorem depth_state_not_restored_cex :
    g_depth.depthTest = true ∧
    (resolve_manip 10 10 false 0 (env_cov none)
      ⟨g_depth, init_manip_state 0, []⟩).gl.depthTest = false := by
  decide

/-- C8, amended.  After the pick pass, the framebuffer binding is set to
the host's current-FBO dataref value and the viewport to the host viewport
rectangle (not to the captured pre-pass values), the depth test and depth
mask are forced off, and — in reversed-z mode — the depth function is set
to `GL_LESS` and the clear depth to `1`, while in forward-z mode those two
retain their prior values.  The prior state is recovered only insofar as it
already equalled these values. -/
theorem post_pass_gl_state (mouse_x mouse_y : Int) (mapOk : Bool)
    (now : Nat) (env : HostEnv) (w : World) :
    (resolve_manip mouse_x mouse_y mapOk now env w).gl.framebuffer =
        env.host_fbo ∧
    (resolve_manip mouse_x mouse_y mapOk now env w).gl.viewport = env.vp ∧
    (resolve_manip mouse_x mouse_y mapOk now env w).gl.depthTest = false ∧
    (resolve_manip mouse_x mouse_y mapOk now env w).gl.depthMask = false ∧
    (resolve_manip mouse_x mouse_y mapOk now env w).gl.depthFunc =
        (if is_rev_float_z env then .less else w.gl.depthFunc) ∧
    (resolve_manip mouse_x mouse_y mapOk now env w).gl.clearDepth =
        (if is_rev_float_z env then 1 else w.gl.clearDepth) := by
  rw [resolve_manip_gl]
  exact ⟨rfl, rfl, rfl, rfl, rfl, rfl⟩

/-- C9.  A drain whose map attempt fails leaves the resolved index
unchanged, and a frame sequence all of whose map attempts fail leaves the
resolved index permanently at its last successfully read value — there is
no timeout that ever alters it. -/
theorem stale_index_on_map_fail :
    (∀ (now : Nat) (s : ManipState),
      (resolve_manip_complete none now s).manip_idx = s.manip_idx) ∧
    (∀ (w : World) (fs : List FrameIn), (∀ f ∈ fs, f.mapOk = false) →
      (run_frames fs w).st.manip_idx = w.st.manip_idx) := by
  constructor
  · intro now s
    rw [drain_none_eq]
  · intro w fs h
    exact run_frames_manip_idx fs w h

/-- C9, witness: three consecutive frames with failing maps leave the
resolved index unchanged at a concrete state. -/
theorem stale_index_on_map_fail_witness :
    (run_frames
      [⟨100, 100, false, 1, env_cov (some 9)⟩,
       ⟨100, 100, false, 2, env_cov (some 9)⟩,
       ⟨100, 100, false, 3, env_cov (some 9)⟩]
      ⟨g0, ⟨false, 7, 7, [], 0, 0, 0, 0⟩, []⟩).st.manip_idx =
      (⟨false, 7, 7, [], 0, 0, 0, 0⟩ : ManipState).manip_idx :=
  stale_index_on_map_fail.2 ⟨g0, ⟨false, 7, 7, [], 0, 0, 0, 0⟩, []⟩
    [⟨100, 100, false, 1, env_cov (some 9)⟩,
     ⟨100, 100, false, 2, env_cov (some 9)⟩,
     ⟨100, 100, false, 3, env_cov (some 9)⟩] (by decide)

/-- C10.  A pointer exactly on the right edge (`x = vp.x + vp.w`) or top
edge (`y = vp.y + vp.h`) of the host viewport is in-bounds for `draw_cb`'s
strict-inequality check, so both the pick pass and the paint pass
execute. -/
theorem edge_pointer_in_bounds (mouse_x mouse_y : Int) (mapOk : Bool)
    (now : Nat) (env : HostEnv) (g : GLState) (s : ManipState)
    (_hedge : mouse_x = env.vp.x + env.vp.w ∨ mouse_y = env.vp.y + env.vp.h)
    (hx1 : env.vp.x ≤ mouse_x) (hx2 : mouse_x ≤ env.vp.x + env.vp.w)
    (hy1 : env.vp.y ≤ mouse_y) (hy2 : mouse_y ≤ env.vp.y + env.vp.h) :
    mouse_off_screen mouse_x mouse_y env.vp = false ∧
    GLCmd.readPixels ∈
      (draw_cb mouse_x mouse_y mapOk now env ⟨g, s, []⟩).trace ∧
    GLCmd.paintDraw env.indexToPaint ∈
      (draw_cb mouse_x mouse_y mapOk now env ⟨g, s, []⟩).trace := by
  have hoff : mouse_off_screen mouse_x mouse_y env.vp = false := by
    simp only [mouse_off_screen, Bool.or_eq_false_iff, decide_eq_false_iff_not,
      not_lt]
    omega
  refine ⟨hoff, ?_, ?_⟩ <;>
  · rw [draw_cb_on mouse_x mouse_y mapOk now env _ hoff]
    simp [glUseProgram0, emit, paint_manip_eq, resolve_manip_trace]

/-- C10, witness: pointer `(800, 100)` on the right edge of viewport
`(0,0,800,600)` executes both passes. -/
theorem edge_pointer_in_bounds_witness :
    mouse_off_screen 800 100 (env_cov none).vp = false ∧
    GLCmd.readPixels ∈
      (draw_cb 800 100 false 0 (env_cov none)
        ⟨g0, init_manip_state 0, []⟩).trace ∧
    GLCmd.paintDraw (env_cov none).indexToPaint ∈
      (draw_cb 800 100 false 0 (env_cov none)
        ⟨g0, init_manip_state 0, []⟩).trace :=
  edge_pointer_in_bounds 800 100 false 0 (env_cov none) g0
    (init_manip_state 0) (by decide) (by decide) (by decide) (by decide)
    (by decide)

end Manipdraw
